import Mathlib

/-!
Shallow embedding of the `songlink_api` client (src/songlink_api/__init__.py):
the connection pool and availability check in `SongLink.__init__` /
`SongLink.__make_request`, the query construction of `links_by_url`, the
error-classification branch of `__make_request`, and the success-path mapping
of the JSON body into the result model.

JSON values are modelled by `JVal`; a parsed response body is the association
list of a JSON object (Python dict), with parse failure normalized to the
empty list, exactly as the `except` clause in `__make_request` does.
Python `None` inside JSON data is `JVal.jnull`; a `.get(k)` with no default is
`jLookup`, a `.get(k, d)` is `jGetD`.

The modules `songlink_api.types` and `songlink_api.types.exceptions` are not
part of the source tree; the result-model dataclasses, the exception classes
and the `PlatformName` / `APIProvider` enumerations they export are modelled
from the spec where so marked.
-/

/-- A JSON value as produced by parsing a response body. `jnull` doubles as
Python `None`. -/
inductive JVal where
  | jnull : JVal
  | jbool : Bool → JVal
  | jnum : Int → JVal
  | jstr : String → JVal
  | jarr : List JVal → JVal
  | jobj : List (String × JVal) → JVal

/-- Python `x == s` for a JSON value `x` and a string literal `s`: true only
when `x` is that string. -/
def JVal.eqStr : JVal → String → Bool
  | JVal.jstr t, s => t == s
  | _, _ => false

/-- Association-list lookup on a parsed JSON object: Python `d.get(k)` gives
`none` when the key is absent. -/
def jLookup : List (String × JVal) → String → Option JVal
  | [], _ => none
  | (k, v) :: rest, key => if k == key then some v else jLookup rest key

/-- Python `d.get(k, default)`: the stored value (which may itself be null)
when the key is present, the default otherwise. -/
def jGetD (fields : List (String × JVal)) (k : String) (d : JVal) : JVal :=
  (jLookup fields k).getD d

/-- Modelled from the spec: `PlatformName` and `APIProvider`
(`songlink_api.types`, not under src/) are closed string enumerations, and
Python membership `x in list(Enum)` of a JSON value in such an enumeration is
string-value equality with some member (§9: "a set-membership check against
that enumeration"). -/
def jvalMemberOfNames (v : JVal) (names : List String) : Bool :=
  names.any (fun s => v.eqStr s)

/-- One connection of the pool: the key of `self.connections`
(`none` = direct, `some p` = proxy address) together with its value, the
cooldown timestamp (`none` = never set). Timestamps are integers. -/
abbrev Conn := Option String × Option Int

/-- The connection pool `self.connections`, a Python dict modelled as an
association list with pairwise distinct keys. -/
abbrev Pool := List Conn

/-- Line 96: `all(map(lambda e: self.connections[e] is not None, self.connections))`. -/
def poolAllUnavailable (conns : Pool) : Bool :=
  conns.all (fun c => c.2.isSome)

/-- Line 100: `list(filter(lambda e: self.connections[e] is None, self.connections))`,
the candidate list handed to `random.choice`. -/
def poolAvailable (conns : Pool) : Pool :=
  conns.filter (fun c => c.2.isNone)

/-- Line 99: `random.choice(...)` over the available connections, with the
random draw made explicit as an index `pickIdx`. Only evaluated when some
connection is available, so the fallback entry is unreachable. -/
def pickedConn (conns : Pool) (pickIdx : Nat) : Option String :=
  ((poolAvailable conns).getD (pickIdx % (poolAvailable conns).length) (none, none)).1

/-- Lines 134-138: `self.connections[connection] = datetime.datetime.now() +
datetime.timedelta(seconds=self.api_timeout)` — a dict value update at the
given key, leaving every key in place. -/
def markCooldown (conns : Pool) (key : Option String) (t : Int) : Pool :=
  conns.map (fun c => if c.1 == key then (c.1, some t) else c)

/-- Failure outcomes of `__make_request`. The first three model the typed
exceptions imported from `songlink_api.types.exceptions` (not under src/,
modelled from the spec's error taxonomy §7); the `py*` constructors are
unhandled Python runtime errors escaping the dispatcher. -/
inductive DispatchErr where
  | tooManyRequests : DispatchErr
  | entityNotFound : DispatchErr
  | apiException : Nat → Option JVal → DispatchErr
  | pyAttributeError : DispatchErr
  | pyTypeError : DispatchErr
  | pyValueError : DispatchErr

/-- Modelled from the spec (§3): the `EntityUniqueId` dataclass of
`songlink_api.types` (not under src/). Raw JSON values are stored as passed
by `__make_request`; `platforms` holds recognized platform names. -/
structure EntityUniqueId where
  id : JVal
  type : JVal
  title : JVal
  artist_name : JVal
  thumbnail_url : JVal
  thumbnail_width : JVal
  thumbnail_height : JVal
  api_provider : JVal
  platforms : List String

/-- Modelled from the spec (§3): the `Platform` dataclass of
`songlink_api.types` (not under src/). -/
structure Platform where
  name : String
  country : JVal
  entity_unique_id : JVal
  url : JVal
  native_app_uri_mobile : JVal
  native_app_uri_desktop : JVal

/-- Modelled from the spec (§3): the `APIResponse` dataclass of
`songlink_api.types` (not under src/). -/
structure APIResponse where
  entity_unique_id : JVal
  user_country : JVal
  page_url : JVal
  entities_by_unique_id : List EntityUniqueId
  links_by_platform : List Platform

/-- Error-propagating map over a list, the effect of a Python comprehension
whose element expression may raise. -/
def mapExcept (f : α → Except DispatchErr β) : List α → Except DispatchErr (List β)
  | [] => Except.ok []
  | a :: rest =>
    match f a with
    | Except.error e => Except.error e
    | Except.ok b =>
      match mapExcept f rest with
      | Except.error e => Except.error e
      | Except.ok bs => Except.ok (b :: bs)

/-- Python iteration `for x in v`: arrays yield their items, strings yield
their characters as one-character strings, dicts yield their keys, everything
else (including `None`) raises `TypeError`. -/
def pyIter : JVal → Except DispatchErr (List JVal)
  | JVal.jarr items => Except.ok items
  | JVal.jstr s => Except.ok (s.data.map (fun c => JVal.jstr (String.mk [c])))
  | JVal.jobj fields => Except.ok (fields.map (fun p => JVal.jstr p.1))
  | _ => Except.error DispatchErr.pyTypeError

/-- Python `v.get(...)` requires a dict; any other value (including `None`)
raises `AttributeError`. -/
def asDict : JVal → Except DispatchErr (List (String × JVal))
  | JVal.jobj fields => Except.ok fields
  | _ => Except.error DispatchErr.pyAttributeError

/-- Line 160: `PlatformName(platform_name)` — enum construction by value,
raising `ValueError` when the value is not a member of the enumeration. -/
def platformNameCtor (recPlat : List String) (v : JVal) : Except DispatchErr String :=
  match v with
  | JVal.jstr s => if recPlat.contains s then Except.ok s else Except.error DispatchErr.pyValueError
  | _ => Except.error DispatchErr.pyValueError

/-- Lines 159-163: the `platforms` comprehension of an entity. Its filter
condition is `entity.get("platforms") in list(PlatformName)` — the membership
test is applied to the WHOLE platforms value, not to the iterated
`platform_name`. -/
def entityPlatforms (recPlat : List String) (fields : List (String × JVal)) :
    Except DispatchErr (List String) :=
  let platVal := jGetD fields "platforms" JVal.jnull
  match pyIter platVal with
  | Except.error e => Except.error e
  | Except.ok items =>
    if jvalMemberOfNames platVal recPlat then
      mapExcept (platformNameCtor recPlat) items
    else
      Except.ok []

/-- Lines 150-164: construction of one `EntityUniqueId` from an entity dict. -/
def mkEntity (recPlat : List String) (fields : List (String × JVal)) :
    Except DispatchErr EntityUniqueId :=
  match entityPlatforms recPlat fields with
  | Except.error e => Except.error e
  | Except.ok plats => Except.ok
    { id := jGetD fields "id" JVal.jnull
      type := jGetD fields "type" JVal.jnull
      title := jGetD fields "title" JVal.jnull
      artist_name := jGetD fields "artistName" JVal.jnull
      thumbnail_url := jGetD fields "thumbnailUrl" JVal.jnull
      thumbnail_width := jGetD fields "thumbnailWidth" JVal.jnull
      thumbnail_height := jGetD fields "thumbnailHeight" JVal.jnull
      api_provider := jGetD fields "apiProvider" JVal.jnull
      platforms := plats }

/-- The comprehension filter of line 166: entity is a dict whose
`apiProvider` value is a member of the `APIProvider` enumeration. -/
def entityKept (recProv : List String) (v : JVal) : Bool :=
  match v with
  | JVal.jobj fields => jvalMemberOfNames (jGetD fields "apiProvider" JVal.jnull) recProv
  | _ => false

/-- Conversion of one entity value: `entity.get(...)` calls require a dict,
then the fields are assembled by `mkEntity`. -/
def convEntity (recPlat : List String) (v : JVal) : Except DispatchErr EntityUniqueId :=
  match asDict v with
  | Except.error e => Except.error e
  | Except.ok fields => mkEntity recPlat fields

/-- Lines 149-167: the `entities_by_unique_id` comprehension over
`data.get("entitiesByUniqueId").values()`, keeping an entity exactly when its
`apiProvider` value is a recognized provider. -/
def parseEntityList (recPlat recProv : List String) :
    List JVal → Except DispatchErr (List EntityUniqueId)
  | [] => Except.ok []
  | v :: rest =>
    match asDict v with
    | Except.error e => Except.error e
    | Except.ok fields =>
      if jvalMemberOfNames (jGetD fields "apiProvider" JVal.jnull) recProv then
        match mkEntity recPlat fields with
        | Except.error e => Except.error e
        | Except.ok ent =>
          match parseEntityList recPlat recProv rest with
          | Except.error e => Except.error e
          | Except.ok tail => Except.ok (ent :: tail)
      else
        parseEntityList recPlat recProv rest

/-- Lines 168-179: the `links_by_platform` comprehension over
`data.get("linksByPlatform").items()`, keeping an entry exactly when its
platform-name key is a recognized platform name. -/
def parseLinksList (recPlat : List String) :
    List (String × JVal) → Except DispatchErr (List Platform)
  | [] => Except.ok []
  | (name, v) :: rest =>
    if recPlat.contains name then
      match asDict v with
      | Except.error e => Except.error e
      | Except.ok fields =>
        match parseLinksList recPlat rest with
        | Except.error e => Except.error e
        | Except.ok tail =>
          Except.ok
            ({ name := name
               country := jGetD fields "country" JVal.jnull
               entity_unique_id := jGetD fields "entityUniqueId" JVal.jnull
               url := jGetD fields "url" JVal.jnull
               native_app_uri_mobile := jGetD fields "nativeAppUriMobile" JVal.jnull
               native_app_uri_desktop := jGetD fields "nativeAppUriDesktop" JVal.jnull } :: tail)
    else
      parseLinksList recPlat rest

/-- The `params` dict of `__make_request`: string keys mapped to string values
or Python `None`. -/
abbrev Params := List (String × Option String)

/-- Python `params.get(k)` distinguishing an absent key (`none`) from a key
stored with value `None` (`some none`). -/
def paramLookup : Params → String → Option (Option String)
  | [], _ => none
  | (k, v) :: rest, key => if k == key then some v else paramLookup rest key

/-- Line 147: `params.get("userCountry", "US")`, as a JSON value so it can
serve as the default of `data.get("userCountry", ...)`. -/
def paramsGetUserCountry (ps : Params) : JVal :=
  match paramLookup ps "userCountry" with
  | some (some s) => JVal.jstr s
  | some none => JVal.jnull
  | none => JVal.jstr "US"

/-- Lines 115-119: `{k: v for k, v in params.items() if v is not None}`
(empty when `params` is `None`). -/
def filteredParams (params : Option Params) : List (String × String) :=
  match params with
  | none => []
  | some ps => ps.filterMap (fun kv =>
      match kv.2 with
      | some v => some (kv.1, v)
      | none => none)

/-- Lines 114-121: the query actually sent — the non-None params merged with
`{"key": api_key}` when an API key is configured (dict-merge semantics:
update in place if the key exists, else append). -/
def buildQuery (params : Option Params) (apiKey : Option String) : List (String × String) :=
  let q := filteredParams params
  match apiKey with
  | none => q
  | some k =>
      if q.any (fun kv => kv.1 == "key") then
        q.map (fun kv => if kv.1 == "key" then ("key", k) else kv)
      else
        q ++ [("key", k)]

/-- Lines 145-180: the success-path mapping of the parsed body into an
`APIResponse`, in Python argument-evaluation order: `user_country` evaluates
`params.get` (raising `AttributeError` when `params` is `None`) before the
two comprehensions run. -/
def parseSuccess (recPlat recProv : List String) (params : Option Params)
    (data : List (String × JVal)) : Except DispatchErr APIResponse :=
  match params with
  | none => Except.error DispatchErr.pyAttributeError
  | some ps =>
    match jGetD data "entitiesByUniqueId" JVal.jnull with
    | JVal.jobj entFields =>
      match parseEntityList recPlat recProv (entFields.map (fun p => p.2)) with
      | Except.error e => Except.error e
      | Except.ok entities =>
        match jGetD data "linksByPlatform" JVal.jnull with
        | JVal.jobj linkFields =>
          match parseLinksList recPlat linkFields with
          | Except.error e => Except.error e
          | Except.ok links =>
            Except.ok
              { entity_unique_id := jGetD data "entityUniqueId" JVal.jnull
                user_country := jGetD data "userCountry" (paramsGetUserCountry ps)
                page_url := jGetD data "pageUrl" JVal.jnull
                entities_by_unique_id := entities
                links_by_platform := links }
        | _ => Except.error DispatchErr.pyAttributeError
    | _ => Except.error DispatchErr.pyAttributeError

/-- One HTTP exchange as seen by `__make_request` after line 129: the status
code and the parsed JSON body (a dict; a parse failure has already been
normalized to the empty dict). -/
structure HttpResponse where
  status : Nat
  data : List (String × JVal)

/-- Line 132 comparisons: `data.get("code") == s` — false when the key is
absent or the stored value is not that string. -/
def reasonEq (r : Option JVal) (s : String) : Bool :=
  match r with
  | some v => v.eqStr s
  | none => false

/-- `SongLink.__make_request` (lines 96-180): the pool-availability gate, the
connection pick, the error-classification branch, and the success-path
mapping. `now` is `datetime.datetime.now()` at the moment of the cooldown
write; the network exchange is abstracted by `resp`. Returns the call's
outcome together with the pool after the call. -/
def makeRequest (recPlat recProv : List String) (conns : Pool) (pickIdx : Nat)
    (now : Int) (apiTimeout : Int) (params : Option Params) (resp : HttpResponse) :
    Except DispatchErr APIResponse × Pool :=
  if poolAllUnavailable conns then
    (Except.error DispatchErr.tooManyRequests, conns)
  else
    let connection := pickedConn conns pickIdx
    if resp.status != 200 || resp.data.isEmpty then
      let reason := jLookup resp.data "code"
      if reasonEq reason "too_many_requests" then
        (Except.error DispatchErr.tooManyRequests, markCooldown conns connection (now + apiTimeout))
      else if reasonEq reason "could_not_fetch_entity_data" then
        (Except.error DispatchErr.entityNotFound, conns)
      else
        (Except.error (DispatchErr.apiException resp.status reason), conns)
    else
      (parseSuccess recPlat recProv params resp.data, conns)

/-- The failure of `SongLink.__init__` line 72: `ValueError("No connections
specified.")`, the spec's `ConfigurationError`. -/
inductive InitError where
  | noConnections : InitError

/-- Dict insertion `self.connections[k] = v`: update in place when the key
exists, append otherwise. -/
def dictInsertConn (d : Pool) (k : Option String) (v : Option Int) : Pool :=
  if d.any (fun c => c.1 == k) then
    d.map (fun c => if c.1 == k then (k, v) else c)
  else
    d ++ [(k, v)]

/-- Lines 65-72 of `SongLink.__init__`: build `self.connections` from the
proxy list (a single proxy string is the singleton list, `None` the empty
list), add the direct connection unless `always_use_proxy`, and fail when the
result is empty. -/
def initConnections (proxies : List String) (alwaysUseProxy : Bool) :
    Except InitError Pool :=
  let conns := proxies.foldl (fun d p => dictInsertConn d (some p) none) []
  let conns := if !alwaysUseProxy then dictInsertConn conns none none else conns
  if conns.isEmpty then Except.error InitError.noConnections else Except.ok conns

/-- Lines 204-211: the params dict built by `links_by_url` — `url`,
uppercased `userCountry`, and `songIfSingle` stringified. -/
def linksByUrlParams (url : String) (userCountry : String) (songIfSingle : Bool) : Params :=
  [("url", some url),
   ("userCountry", some userCountry.toUpper),
   ("songIfSingle", some (if songIfSingle then "true" else "false"))]

/-- The request dispatched by `links_by_url`: the method path `"links"`
together with the query `__make_request` sends for these params. -/
def linksByUrlRequest (url : String) (userCountry : String) (songIfSingle : Bool)
    (apiKey : Option String) : String × List (String × String) :=
  ("links", buildQuery (some (linksByUrlParams url userCountry songIfSingle)) apiKey)

/-- Updating a dict value at a key leaves the key set of the pool unchanged. -/
theorem markCooldown_keys (conns : Pool) (k : Option String) (t : Int) :
    (markCooldown conns k t).map Prod.fst = conns.map Prod.fst := by
  induction conns with
  | nil => rfl
  | cons c rest ih =>
    simp only [markCooldown, List.map_cons] at ih ⊢
    by_cases h : (c.1 == k) = true
    · rw [if_pos h]
      exact congrArg (List.cons c.1) ih
    · rw [if_neg h]
      exact congrArg (List.cons c.1) ih

/-- C1. The spec: a connection is available iff `cooldownUntil` is null or in
the past, so a connection whose cooldown timestamp has lapsed is selectable
again. The code (lines 96-101) tests only `is None` and never compares the
stored timestamp with the current time: a pool whose single direct connection
carries the expired timestamp 5 has no available connection at time 10, and
the dispatch fails with `TooManyRequests` instead of selecting it. -/
theorem C1_expired_cooldown_still_unavailable :
    poolAvailable [(none, some 5)] = [] ∧
    (makeRequest ["spotify"] ["spotify"] [(none, some 5)] 0 10 60 none
      ⟨200, [("pageUrl", JVal.jstr "x")]⟩).1
      = Except.error DispatchErr.tooManyRequests :=
  ⟨rfl, rfl⟩

/-- C2. The spec: each recognized platform name in an entity's platform list
is kept and each unrecognized one dropped. The code's filter condition
(line 162) is `entity.get("platforms") in list(PlatformName)` — it tests the
whole list for enum membership, which is false for every list — so the
resulting platform list is always empty: here the recognized name "spotify"
is dropped along with the unrecognized "bad". -/
theorem C2_platform_filter_drops_recognized_names :
    (parseEntityList ["spotify", "appleMusic"] ["spotify"]
      [JVal.jobj [("apiProvider", JVal.jstr "spotify"),
                  ("platforms", JVal.jarr [JVal.jstr "spotify", JVal.jstr "bad"])]]).map
      (List.map EntityUniqueId.platforms) = Except.ok [[]] :=
  rfl

/-- C3. When every connection in the pool is unavailable (its cooldown
timestamp set and still in the future), the dispatch fails with
`TooManyRequests`; the outcome is the same for every pick index and every
possible network response, so no connection is chosen and no network request
is consulted, and the pool is unchanged. -/
theorem C3_all_unavailable_fails_fast (recPlat recProv : List String) (conns : Pool)
    (pickIdx : Nat) (now apiTimeout : Int) (params : Option Params) (resp : HttpResponse)
    (h : ∀ c ∈ conns, ∃ t : Int, c.2 = some t ∧ now < t) :
    makeRequest recPlat recProv conns pickIdx now apiTimeout params resp
      = (Except.error DispatchErr.tooManyRequests, conns) := by
  have hall : poolAllUnavailable conns = true := by
    simp only [poolAllUnavailable, List.all_eq_true]
    intro c hc
    obtain ⟨t, ht, _⟩ := h c hc
    simp [ht]
  simp [makeRequest, hall]

/-- Witness for C3 at a concrete pool of two fully cooled-down connections. -/
theorem C3_witness :
    makeRequest ["spotify"] ["spotify"] [(none, some 20), (some "p", some 30)] 0 10 60 none
      ⟨200, []⟩
      = (Except.error DispatchErr.tooManyRequests, [(none, some 20), (some "p", some 30)]) :=
  C3_all_unavailable_fails_fast ["spotify"] ["spotify"] _ 0 10 60 none ⟨200, []⟩
    (by
      intro c hc
      simp only [List.mem_cons, List.not_mem_nil, or_false] at hc
      rcases hc with rfl | rfl
      · exact ⟨20, rfl, by decide⟩
      · exact ⟨30, rfl, by decide⟩)

/-- C6. A configuration with zero proxy addresses and `always_use_proxy`
set leaves `self.connections` empty, and construction fails with
`ValueError("No connections specified.")` — the spec's `ConfigurationError`. -/
theorem C6_no_connections_config_error (proxies : List String) (h : proxies = []) :
    initConnections proxies true = Except.error InitError.noConnections := by
  subst h
  rfl

/-- Witness for C6 at the empty proxy list. -/
theorem C6_witness :
    initConnections [] true = Except.error InitError.noConnections :=
  C6_no_connections_config_error [] rfl

/-- C9. `links_by_url` dispatches method "links" with `url`, the uppercased
`userCountry` and `songIfSingle` stringified as "true"/"false"; the query
sent is exactly these (all non-null) parameters, plus a `key` parameter
exactly when an API key is configured. -/
theorem C9_links_by_url_request (url userCountry : String) (songIfSingle : Bool)
    (apiKey : Option String) :
    linksByUrlRequest url userCountry songIfSingle apiKey
      = ("links",
         [("url", url), ("userCountry", userCountry.toUpper),
          ("songIfSingle", if songIfSingle then "true" else "false")]
          ++ (match apiKey with
              | some k => [("key", k)]
              | none => [])) := by
  cases apiKey <;> rfl

/-- C10. An HTTP 200 response with the non-empty body `{"pageUrl": "x"}`,
which lacks the `entitiesByUniqueId` key, makes line 165 call `.values()` on
`None`: the dispatcher escapes with an unhandled `AttributeError` rather than
returning an `APIResponse` or raising one of the typed errors. -/
theorem C10_missing_entities_key_attribute_error :
    (makeRequest ["spotify"] ["spotify"] [(none, none)] 0 0 60
      (some [("userCountry", some "US")]) ⟨200, [("pageUrl", JVal.jstr "x")]⟩).1
      = Except.error DispatchErr.pyAttributeError :=
  rfl

/-- C4. For a non-success response (not HTTP 200 with non-empty parsed body)
whose body's `code` is "too_many_requests", the dispatcher sets the selected
connection's cooldown timestamp to `now + api_timeout` and fails with
`TooManyRequests`; the pool keeps exactly the same connection keys, so the
connection is not removed. -/
theorem C4_rate_limit_marks_cooldown (recPlat recProv : List String) (conns : Pool)
    (pickIdx : Nat) (now apiTimeout : Int) (params : Option Params) (resp : HttpResponse)
    (havail : poolAllUnavailable conns = false)
    (hfail : resp.status ≠ 200 ∨ resp.data = [])
    (hcode : jLookup resp.data "code" = some (JVal.jstr "too_many_requests")) :
    makeRequest recPlat recProv conns pickIdx now apiTimeout params resp
      = (Except.error DispatchErr.tooManyRequests,
         markCooldown conns (pickedConn conns pickIdx) (now + apiTimeout)) ∧
    (markCooldown conns (pickedConn conns pickIdx) (now + apiTimeout)).map Prod.fst
      = conns.map Prod.fst := by
  refine ⟨?_, markCooldown_keys conns (pickedConn conns pickIdx) (now + apiTimeout)⟩
  have hb : (resp.status != 200 || resp.data.isEmpty) = true := by
    rcases hfail with h | h
    · simp [bne_iff_ne, h]
    · simp [h]
  simp [makeRequest, havail, hb, hcode, reasonEq, JVal.eqStr]

/-- Witness for C4: at time 10 with `api_timeout` 60, a 429 response carrying
`{"code": "too_many_requests"}` puts the picked direct connection in cooldown
until 70 and fails; the other connection's key stays in the pool. -/
theorem C4_witness :
    makeRequest ["spotify"] ["spotify"] [(none, none), (some "p", some 99)] 0 10 60 (some [])
        ⟨429, [("code", JVal.jstr "too_many_requests")]⟩
      = (Except.error DispatchErr.tooManyRequests, [(none, some 70), (some "p", some 99)]) :=
  (C4_rate_limit_marks_cooldown ["spotify"] ["spotify"]
      [(none, none), (some "p", some 99)] 0 10 60 (some [])
      ⟨429, [("code", JVal.jstr "too_many_requests")]⟩ rfl (Or.inl (by decide)) rfl).1.trans
    rfl

/-- C5. For a non-success response (any non-200 status, or empty body) whose
body's `code` is "could_not_fetch_entity_data", the dispatcher fails with
`EntityNotFound` and leaves the pool unchanged. -/
theorem C5_entity_not_found (recPlat recProv : List String) (conns : Pool)
    (pickIdx : Nat) (now apiTimeout : Int) (params : Option Params) (resp : HttpResponse)
    (havail : poolAllUnavailable conns = false)
    (hfail : resp.status ≠ 200 ∨ resp.data = [])
    (hcode : jLookup resp.data "code" = some (JVal.jstr "could_not_fetch_entity_data")) :
    makeRequest recPlat recProv conns pickIdx now apiTimeout params resp
      = (Except.error DispatchErr.entityNotFound, conns) := by
  have hb : (resp.status != 200 || resp.data.isEmpty) = true := by
    rcases hfail with h | h
    · simp [bne_iff_ne, h]
    · simp [h]
  simp [makeRequest, havail, hb, hcode, reasonEq, JVal.eqStr]

/-- Witness for C5 at a 404 response with the entity-not-found code. -/
theorem C5_witness :
    makeRequest ["spotify"] ["spotify"] [(none, none)] 0 10 60 (some [])
        ⟨404, [("code", JVal.jstr "could_not_fetch_entity_data")]⟩
      = (Except.error DispatchErr.entityNotFound, [(none, none)]) :=
  C5_entity_not_found ["spotify"] ["spotify"] [(none, none)] 0 10 60 (some [])
    ⟨404, [("code", JVal.jstr "could_not_fetch_entity_data")]⟩ rfl (Or.inl (by decide)) rfl

/-- C7. Whenever the entity comprehension succeeds, its result is exactly the
conversion of those entities whose declared `apiProvider` tag is a recognized
provider value, in order: every recognized-provider entity is present and
every entity with an unrecognized provider tag is absent. -/
theorem C7_provider_filter (recPlat recProv : List String) (vals : List JVal)
    (es : List EntityUniqueId)
    (hok : parseEntityList recPlat recProv vals = Except.ok es) :
    mapExcept (convEntity recPlat) (vals.filter (entityKept recProv)) = Except.ok es := by
  induction vals generalizing es with
  | nil =>
    simp only [parseEntityList, Except.ok.injEq] at hok
    subst hok
    rfl
  | cons v rest ih =>
    cases v with
    | jobj fields =>
      simp only [parseEntityList, asDict] at hok
      by_cases hcond : jvalMemberOfNames (jGetD fields "apiProvider" JVal.jnull) recProv = true
      · rw [if_pos hcond] at hok
        cases hmk : mkEntity recPlat fields with
        | error e => rw [hmk] at hok; cases hok
        | ok ent =>
          rw [hmk] at hok
          cases hrest : parseEntityList recPlat recProv rest with
          | error e => rw [hrest] at hok; cases hok
          | ok tail =>
            rw [hrest] at hok
            simp only [Except.ok.injEq] at hok
            subst hok
            simp only [List.filter_cons, entityKept, hcond, if_true, mapExcept,
              convEntity, asDict, hmk, ih tail hrest]
      · rw [if_neg hcond] at hok
        have := ih es hok
        simpa [List.filter_cons, entityKept, hcond] using this
    | jnull => simp [parseEntityList, asDict] at hok
    | jbool b => simp [parseEntityList, asDict] at hok
    | jnum n => simp [parseEntityList, asDict] at hok
    | jstr s => simp [parseEntityList, asDict] at hok
    | jarr items => simp [parseEntityList, asDict] at hok

/-- Witness for C7: of two entities, the one tagged with the recognized
provider "spotify" is kept and the one tagged "unknown_provider" is dropped. -/
theorem C7_witness :
    mapExcept (convEntity ["spotify"])
      (([JVal.jobj [("apiProvider", JVal.jstr "spotify"), ("platforms", JVal.jarr [])],
         JVal.jobj [("apiProvider", JVal.jstr "unknown_provider"),
                    ("platforms", JVal.jarr [])]]).filter (entityKept ["spotify"]))
      = Except.ok
          [{ id := JVal.jnull, type := JVal.jnull, title := JVal.jnull,
             artist_name := JVal.jnull, thumbnail_url := JVal.jnull,
             thumbnail_width := JVal.jnull, thumbnail_height := JVal.jnull,
             api_provider := JVal.jstr "spotify", platforms := [] }] :=
  C7_provider_filter ["spotify"] ["spotify"]
    [JVal.jobj [("apiProvider", JVal.jstr "spotify"), ("platforms", JVal.jarr [])],
     JVal.jobj [("apiProvider", JVal.jstr "unknown_provider"), ("platforms", JVal.jarr [])]]
    _ rfl

/-- C8. For every successful dispatch (through either public operation, which
always sends a non-null `userCountry` parameter or none at all), the
response's `user_country` is the body's own `userCountry` value when the body
has that key, else the `userCountry` parameter that was sent, else "US". -/
theorem C8_user_country_fallback (recPlat recProv : List String) (conns : Pool)
    (pickIdx : Nat) (now apiTimeout : Int) (ps : Params) (resp : HttpResponse)
    (r : APIResponse)
    (hsent : paramLookup ps "userCountry" = none ∨
             ∃ uc, paramLookup ps "userCountry" = some (some uc))
    (hok : (makeRequest recPlat recProv conns pickIdx now apiTimeout (some ps) resp).1
             = Except.ok r) :
    r.user_country =
      match jLookup resp.data "userCountry" with
      | some v => v
      | none =>
        match paramLookup ps "userCountry" with
        | some (some uc) => JVal.jstr uc
        | _ => JVal.jstr "US" := by
  cases hall : poolAllUnavailable conns with
  | true => simp [makeRequest, hall] at hok
  | false =>
    simp only [makeRequest, hall] at hok
    cases hb : (resp.status != 200 || resp.data.isEmpty) with
    | true =>
      cases h1 : reasonEq (jLookup resp.data "code") "too_many_requests" <;>
        cases h2 : reasonEq (jLookup resp.data "code") "could_not_fetch_entity_data" <;>
        simp [hb, h1, h2] at hok
    | false =>
      simp only [hb, Bool.false_eq_true, if_false] at hok
      simp only [parseSuccess] at hok
      repeat' split at hok
      all_goals try exact Except.noConfusion hok
      injection hok with h
      subst h
      show jGetD resp.data "userCountry" (paramsGetUserCountry ps) = _
      simp only [jGetD, paramsGetUserCountry]
      cases hlk : jLookup resp.data "userCountry" with
      | some v => rfl
      | none => rcases hsent with hs | ⟨uc, hs⟩ <;> simp [hs]

/-- Witness for C8: the body lacks `userCountry`, so the value falls back to
the sent `userCountry` parameter "DE". -/
theorem C8_witness :
    APIResponse.user_country
      { entity_unique_id := JVal.jnull, user_country := JVal.jstr "DE",
        page_url := JVal.jnull, entities_by_unique_id := [], links_by_platform := [] }
      = JVal.jstr "DE" :=
  C8_user_country_fallback ["spotify"] ["spotify"] [(none, none)] 0 10 60
    [("userCountry", some "DE")]
    ⟨200, [("entitiesByUniqueId", JVal.jobj []), ("linksByPlatform", JVal.jobj [])]⟩
    { entity_unique_id := JVal.jnull, user_country := JVal.jstr "DE",
      page_url := JVal.jnull, entities_by_unique_id := [], links_by_platform := [] }
    (Or.inr ⟨"DE", rfl⟩) rfl
